import Mathlib

/-!
# Reconciliation Engine — shallow embedding

This file embeds the reconciliation engine of the payment-settlement
backend (`runReconciliation` in the reconciliation controller, together
with the pieces of the Transaction / ReconciliationRun / Alert models it
touches) as executable Lean definitions, and proves properties of the
embedding that correspond to the specification's testable properties.

Modelling conventions:
* Mongo documents become structures; `_id` values are `Nat`.
* Amounts are `Int` (the schema stores numbers in the smallest currency
  unit); `transaction_date` is an `Int` of milliseconds since the epoch,
  so the controller's `hoursDiff <= date_window_hours` test (which divides
  a millisecond difference by 3 600 000) is rendered exactly as
  `|Δms| ≤ date_window_hours * 3600000`.
* The Transaction Store is a `List Txn`; `Transaction.updateOne` /
  `updateMany` become a `map` that rewrites every record with the given
  `_id`; `Transaction.find` becomes `List.filter` (order preserved, as a
  Mongo collection scan preserves the store order used here).
* Wall-clock values (`reconciliation_date`, `started_at`, `completed_at`,
  `duration_ms`, error timestamps, the random `run_id` suffix) carry no
  algorithmic content and are not modelled; an error entry is modelled by
  its `message` string.
* `Alert.createAlert` persists the alert and can fail; the environment
  carries `alertError`, mapping an alert payload to `some message` when
  its `save()` would raise, `none` when it succeeds.  The audit logger
  swallows its own errors (`auditLogSchema.statics.log` wraps `save` in
  try/catch) and the socket emit is conditional, so neither is modelled
  as fallible.  The free-form `data` payload of an alert is not modelled;
  no claim inspects it.
* A thrown JS exception is modelled by the `thrown : Option String` field
  of the loop state: once set, every later step of the `try` body is a
  no-op, and the `catch` block of `runReconciliation` turns it into the
  FAILED run that is re-raised to the caller.
-/

/-- Transaction `source` field (`TRANSACTION_SOURCE` in config/constants). -/
inductive Side where
  | BANK
  | MERCHANT
deriving DecidableEq

/-- `RECONCILIATION_STATUS` from config/constants. -/
inductive RecStatus where
  | PENDING
  | MATCHED
  | UNMATCHED_BANK
  | UNMATCHED_MERCHANT
  | AMOUNT_MISMATCH
  | DUPLICATE
deriving DecidableEq

/-- `ReconciliationRun.status` values. -/
inductive RunStatus where
  | RUNNING
  | COMPLETED
  | FAILED
  | CANCELLED
deriving DecidableEq

/-- The fields of a Transaction document that the engine reads or writes. -/
structure Txn where
  _id : Nat
  transaction_id : String
  merchant_id : String
  amount : Int
  transaction_date : Int
  source : Side
  reconciliation_status : RecStatus
  reconciled_with : Option Nat
  reconciliation_run_id : Option Nat
  is_disputed : Bool
  dispute_reason : Option String
  dispute_amount : Option Int
  sla_breached : Bool
deriving DecidableEq

/-- The run configuration taken from the request body (defaults as in the
controller destructuring: window 24, tolerance 0, empty merchant lists,
no date range). -/
structure Config where
  date_window_hours : Int
  amount_tolerance : Int
  include_merchants : List String
  exclude_merchants : List String
  start_date : Option Int
  end_date : Option Int
deriving DecidableEq

/-- `run.summary` counters. -/
structure Summary where
  total_bank_transactions : Nat
  total_merchant_transactions : Nat
  matched : Nat
  unmatched_bank : Nat
  unmatched_merchant : Nat
  amount_mismatch : Nat
  disputes_detected : Nat
  sla_breaches : Nat
  unknown_merchants : Nat
deriving DecidableEq

/-- Schema defaults: every summary counter starts at 0. -/
def Summary.init : Summary :=
  { total_bank_transactions := 0
    total_merchant_transactions := 0
    matched := 0
    unmatched_bank := 0
    unmatched_merchant := 0
    amount_mismatch := 0
    disputes_detected := 0
    sla_breaches := 0
    unknown_merchants := 0 }

/-- `run.amounts` accumulators. -/
structure Amounts where
  total_matched_amount : Int
  total_unmatched_bank_amount : Int
  total_unmatched_merchant_amount : Int
  total_mismatch_difference : Int
deriving DecidableEq

/-- Schema defaults: every amount accumulator starts at 0. -/
def Amounts.init : Amounts :=
  { total_matched_amount := 0
    total_unmatched_bank_amount := 0
    total_unmatched_merchant_amount := 0
    total_mismatch_difference := 0 }

/-- One value of the `merchantSummary` map built during the loop
(`{ matched: 0, unmatched: 0, mismatches: 0, total_amount: 0 }`). -/
structure MStats where
  matched : Nat
  unmatched : Nat
  mismatches : Nat
  total_amount : Int
deriving DecidableEq

/-- The default entry inserted when a merchant is first seen. -/
def MStats.init : MStats :=
  { matched := 0, unmatched := 0, mismatches := 0, total_amount := 0 }

/-- One element of `run.merchant_summary` as pushed in the formatting loop. -/
structure MerchantSummaryEntry where
  merchant_id : String
  merchant_name : String
  stats : MStats
deriving DecidableEq

/-- The fields of a ReconciliationRun document that the engine writes.
Error entries are modelled by their message strings. -/
structure Run where
  status : RunStatus
  config : Config
  summary : Summary
  amounts : Amounts
  merchant_summary : List MerchantSummaryEntry
  errors : List String
deriving DecidableEq

/-- The run document as first persisted by `ReconciliationRun.create`
(status RUNNING, schema-default summary/amounts, no errors). -/
def initRun (cfg : Config) : Run :=
  { status := RunStatus.RUNNING
    config := cfg
    summary := Summary.init
    amounts := Amounts.init
    merchant_summary := []
    errors := [] }

/-- The alert payload fields the controller fills in (the free-form `data`
object is not modelled). -/
structure AlertData where
  alert_type : String
  severity : String
  title : String
  message : String
  entity_type : String
  entity_id : String
deriving DecidableEq

/-- External collaborators: the Merchant registry (merchant_id ↦ name) and
the fallibility of `Alert.createAlert` (`alertError a = some msg` models
`alert.save()` raising with that message). -/
structure Env where
  merchants : List (String × String)
  alertError : AlertData → Option String

/-- `Merchant.findOne({ merchant_id })` against the registry. -/
def findMerchant (env : Env) (mid : String) : Option (String × String) :=
  env.merchants.find? (fun p => p.1 == mid)

/-- The composite matching key, the template string
`transaction_id-merchant_id-amount`. -/
def txnKey (t : Txn) : String :=
  t.transaction_id ++ "-" ++ t.merchant_id ++ "-" ++ toString t.amount

/-- `merchantTxnMap.get(key) || []`.  The controller builds the map by one
pass over `merchantTransactions`, pushing each record onto its key's
bucket, so a bucket is exactly the in-order sublist of records with that
key. -/
def merchantTxnMapGet (merchantTransactions : List Txn) (key : String) : List Txn :=
  merchantTransactions.filter (fun t => txnKey t == key)

/-- The date-window test inside the `validMatches` filter:
`Math.abs(bankDate - merchantDate) / 3600000 <= date_window_hours`,
rendered over milliseconds without the division. -/
def dateWindowOk (date_window_hours : Int) (bankTxn mTxn : Txn) : Bool :=
  ((bankTxn.transaction_date - mTxn.transaction_date).natAbs : Int)
    ≤ date_window_hours * 3600000

/-- The `validMatches` filter: exact-key candidates not already claimed
this run and within the date window. -/
def validMatchesFor (date_window_hours : Int) (matchedMerchantIds : List Nat)
    (bankTxn : Txn) (exactMatches : List Txn) : List Txn :=
  exactMatches.filter (fun mTxn =>
    !(matchedMerchantIds.contains mTxn._id) && dateWindowOk date_window_hours bankTxn mTxn)

/-- The fallback query
`Transaction.find({source: MERCHANT, transaction_id, merchant_id, reconciliation_status: PENDING})`
against the current store. -/
def fuzzyQuery (store : List Txn) (bankTxn : Txn) : List Txn :=
  store.filter (fun t =>
    t.source == Side.MERCHANT &&
    t.transaction_id == bankTxn.transaction_id &&
    t.merchant_id == bankTxn.merchant_id &&
    t.reconciliation_status == RecStatus.PENDING)

/-- `Transaction.updateOne({_id: id}, fields)` (and, applied twice with the
same fields, `updateMany({_id: {$in: [a, b]}}, fields)`): rewrite every
stored record carrying that `_id`. -/
def updateTxn (store : List Txn) (id : Nat) (f : Txn → Txn) : List Txn :=
  store.map (fun t => if t._id == id then f t else t)

/-- `if (!merchantSummary.has(k)) merchantSummary.set(k, init)`. -/
def msEnsure (ms : List (String × MStats)) (mid : String) : List (String × MStats) :=
  if ms.any (fun p => p.1 == mid) then ms else ms ++ [(mid, MStats.init)]

/-- The ensure-then-mutate idiom `merchantSummary.get(k).field++`. -/
def msUpdate (ms : List (String × MStats)) (mid : String)
    (f : MStats → MStats) : List (String × MStats) :=
  (msEnsure ms mid).map (fun p => if p.1 == mid then (p.1, f p.2) else p)

/-- Read a merchant's accumulated stats (absent = the default entry). -/
def msGet (ms : List (String × MStats)) (mid : String) : MStats :=
  ((ms.find? (fun p => p.1 == mid)).map Prod.snd).getD MStats.init

/-- The `baseQuery` built from the config: PENDING status, optional
`transaction_date` range, `$in` the uppercased include list, `$nin` the
uppercased exclude list. -/
def matchesBaseQuery (cfg : Config) (t : Txn) : Bool :=
  t.reconciliation_status == RecStatus.PENDING
  && (match cfg.start_date with
      | none => true
      | some s => decide (s ≤ t.transaction_date))
  && (match cfg.end_date with
      | none => true
      | some e => decide (t.transaction_date ≤ e))
  && (cfg.include_merchants.isEmpty
      || (cfg.include_merchants.map String.toUpper).contains t.merchant_id)
  && (cfg.exclude_merchants.isEmpty
      || !((cfg.exclude_merchants.map String.toUpper).contains t.merchant_id))

/-- `Transaction.find({...baseQuery, source: BANK})`. -/
def bankPool (cfg : Config) (store : List Txn) : List Txn :=
  store.filter (fun t => matchesBaseQuery cfg t && t.source == Side.BANK)

/-- `Transaction.find({...baseQuery, source: MERCHANT})`. -/
def merchantPool (cfg : Config) (store : List Txn) : List Txn :=
  store.filter (fun t => matchesBaseQuery cfg t && t.source == Side.MERCHANT)

/-- The mutable state threaded through the `try` body: the store, the
in-memory run document, the two claimed-id sets, the `merchantSummary`
map, the alerts created so far, and the pending exception (if any). -/
structure LoopState where
  store : List Txn
  run : Run
  matchedBankIds : List Nat
  matchedMerchantIds : List Nat
  merchantSummary : List (String × MStats)
  alerts : List AlertData
  thrown : Option String
deriving DecidableEq

/-- The DisputeAlert payload built at the amount-mismatch site. -/
def disputeAlertData (bankTxn mismatchTxn : Txn) : AlertData :=
  { alert_type := "DISPUTE_DETECTED"
    severity := "HIGH"
    title := "Amount Mismatch Detected"
    message := "Transaction " ++ bankTxn.transaction_id ++ ": Bank amount "
      ++ toString bankTxn.amount ++ " differs from Merchant amount "
      ++ toString mismatchTxn.amount
    entity_type := "TRANSACTION"
    entity_id := bankTxn.transaction_id }

/-- The exact-match branch (lines 97–131): two `updateOne` calls set
status, `reconciled_with` and the run id on both sides, both id sets grow,
`summary.matched` and `amounts.total_matched_amount` increase, and the
bank merchant's summary entry gets `matched++` and
`total_amount += bankTxn.amount`. -/
def exactMatchStep (runId : Nat) (st : LoopState) (bankTxn matchedMerchant : Txn) : LoopState :=
  let store1 := updateTxn st.store bankTxn._id (fun t =>
    { t with reconciliation_status := RecStatus.MATCHED
             reconciled_with := some matchedMerchant._id
             reconciliation_run_id := some runId })
  let store2 := updateTxn store1 matchedMerchant._id (fun t =>
    { t with reconciliation_status := RecStatus.MATCHED
             reconciled_with := some bankTxn._id
             reconciliation_run_id := some runId })
  { st with
    store := store2
    run :=
      { st.run with
        summary := { st.run.summary with matched := st.run.summary.matched + 1 }
        amounts := { st.run.amounts with
          total_matched_amount := st.run.amounts.total_matched_amount + bankTxn.amount } }
    matchedBankIds := st.matchedBankIds ++ [bankTxn._id]
    matchedMerchantIds := st.matchedMerchantIds ++ [matchedMerchant._id]
    merchantSummary :=
      msUpdate
        (msUpdate st.merchantSummary bankTxn.merchant_id
          (fun s => { s with matched := s.matched + 1 }))
        bankTxn.merchant_id
        (fun s => { s with total_amount := s.total_amount + bankTxn.amount }) }

/-- The within-tolerance branch (lines 146–156): one `updateMany` over both
ids sets only status and run id (no `reconciled_with`), `summary.matched`
increases, and — unlike the exact branch — neither `amounts` nor the
merchant summary is touched. -/
def tolerantMatchStep (runId : Nat) (st : LoopState) (bankTxn mismatchTxn : Txn) : LoopState :=
  let store1 := updateTxn st.store bankTxn._id (fun t =>
    { t with reconciliation_status := RecStatus.MATCHED
             reconciliation_run_id := some runId })
  let store2 := updateTxn store1 mismatchTxn._id (fun t =>
    { t with reconciliation_status := RecStatus.MATCHED
             reconciliation_run_id := some runId })
  { st with
    store := store2
    run :=
      { st.run with
        summary := { st.run.summary with matched := st.run.summary.matched + 1 } }
    matchedBankIds := st.matchedBankIds ++ [bankTxn._id]
    matchedMerchantIds := st.matchedMerchantIds ++ [mismatchTxn._id] }

/-- The amount-mismatch branch (lines 157–205): dispute both records,
bump the mismatch counters and difference, then `Alert.createAlert` runs —
if it raises, the merchant-summary update and the id-set additions that
follow it in the source never execute and the exception aborts the loop. -/
def mismatchStep (env : Env) (runId : Nat) (st : LoopState) (bankTxn mismatchTxn : Txn) : LoopState :=
  let amountDiff : Int := ((bankTxn.amount - mismatchTxn.amount).natAbs : Int)
  let reason := "Amount mismatch: Bank " ++ toString bankTxn.amount
    ++ " vs Merchant " ++ toString mismatchTxn.amount
  let store1 := updateTxn st.store bankTxn._id (fun t =>
    { t with reconciliation_status := RecStatus.AMOUNT_MISMATCH
             is_disputed := true
             dispute_reason := some reason
             dispute_amount := some amountDiff
             reconciliation_run_id := some runId })
  let store2 := updateTxn store1 mismatchTxn._id (fun t =>
    { t with reconciliation_status := RecStatus.AMOUNT_MISMATCH
             is_disputed := true
             dispute_reason := some reason
             dispute_amount := some amountDiff
             reconciliation_run_id := some runId })
  let run1 :=
    { st.run with
      summary := { st.run.summary with
        amount_mismatch := st.run.summary.amount_mismatch + 1
        disputes_detected := st.run.summary.disputes_detected + 1 }
      amounts := { st.run.amounts with
        total_mismatch_difference :=
          st.run.amounts.total_mismatch_difference + amountDiff } }
  let alert := disputeAlertData bankTxn mismatchTxn
  match env.alertError alert with
  | some e => { st with store := store2, run := run1, thrown := some e }
  | none =>
    { st with
      store := store2
      run := run1
      alerts := st.alerts ++ [alert]
      merchantSummary :=
        msUpdate st.merchantSummary bankTxn.merchant_id
          (fun s => { s with mismatches := s.mismatches + 1 })
      matchedBankIds := st.matchedBankIds ++ [bankTxn._id]
      matchedMerchantIds := st.matchedMerchantIds ++ [mismatchTxn._id] }

/-- The no-candidate branch (lines 207–224): the bank record becomes
UNMATCHED_BANK, the unmatched counters and amount grow, and the merchant
summary gets `unmatched++`. -/
def unmatchedBankStep (runId : Nat) (st : LoopState) (bankTxn : Txn) : LoopState :=
  let store1 := updateTxn st.store bankTxn._id (fun t =>
    { t with reconciliation_status := RecStatus.UNMATCHED_BANK
             reconciliation_run_id := some runId })
  { st with
    store := store1
    run :=
      { st.run with
        summary := { st.run.summary with
          unmatched_bank := st.run.summary.unmatched_bank + 1 }
        amounts := { st.run.amounts with
          total_unmatched_bank_amount :=
            st.run.amounts.total_unmatched_bank_amount + bankTxn.amount } }
    merchantSummary :=
      msUpdate st.merchantSummary bankTxn.merchant_id
        (fun s => { s with unmatched := s.unmatched + 1 }) }

/-- Lines 227–231, the end of each loop iteration: `Merchant.findOne`
against the registry; a miss increments `summary.unknown_merchants`.
Skipped when the iteration already raised. -/
def unknownMerchantCheck (env : Env) (st : LoopState) (bankTxn : Txn) : LoopState :=
  if st.thrown.isSome then st else
  match findMerchant env bankTxn.merchant_id with
  | none =>
    { st with
      run := { st.run with
        summary := { st.run.summary with
          unknown_merchants := st.run.summary.unknown_merchants + 1 } } }
  | some _ => st

/-- The tolerance test applied to the first fallback candidate (line 146):
`amount_tolerance > 0 && amountDiff <= amount_tolerance` selects the
within-tolerance branch, otherwise the amount-mismatch branch. -/
def fuzzyStep (env : Env) (cfg : Config) (runId : Nat) (st : LoopState)
    (bankTxn mismatchTxn : Txn) : LoopState :=
  if 0 < cfg.amount_tolerance ∧
      ((bankTxn.amount - mismatchTxn.amount).natAbs : Int) ≤ cfg.amount_tolerance then
    tolerantMatchStep runId st bankTxn mismatchTxn
  else
    mismatchStep env runId st bankTxn mismatchTxn

/-- One iteration of `for (const bankTxn of bankTransactions)`: exact-key
lookup with the claimed/date-window filter, otherwise the fallback fuzzy
query, otherwise unmatched; then the unknown-merchant check.  A pending
exception short-circuits the iteration (the JS loop has already been
aborted). -/
def processBankTxn (env : Env) (cfg : Config) (runId : Nat)
    (merchantTransactions : List Txn) (st : LoopState) (bankTxn : Txn) : LoopState :=
  if st.thrown.isSome then st else
  let st1 :=
    match validMatchesFor cfg.date_window_hours st.matchedMerchantIds bankTxn
        (merchantTxnMapGet merchantTransactions (txnKey bankTxn)) with
    | matchedMerchant :: _ => exactMatchStep runId st bankTxn matchedMerchant
    | [] =>
      match fuzzyQuery st.store bankTxn with
      | mismatchTxn :: _ => fuzzyStep env cfg runId st bankTxn mismatchTxn
      | [] => unmatchedBankStep runId st bankTxn
  unknownMerchantCheck env st1 bankTxn

/-- One iteration of the merchant sweep
`for (const mTxn of merchantTransactions)`. -/
def processMerchantSweep (runId : Nat) (st : LoopState) (mTxn : Txn) : LoopState :=
  if st.thrown.isSome then st else
  if st.matchedMerchantIds.contains mTxn._id then st else
  let store1 := updateTxn st.store mTxn._id (fun t =>
    { t with reconciliation_status := RecStatus.UNMATCHED_MERCHANT
             reconciliation_run_id := some runId })
  let run1 :=
    { st.run with
      summary := { st.run.summary with
        unmatched_merchant := st.run.summary.unmatched_merchant + 1 }
      amounts := { st.run.amounts with
        total_unmatched_merchant_amount :=
          st.run.amounts.total_unmatched_merchant_amount + mTxn.amount } }
  { st with
    store := store1
    run := run1
    merchantSummary :=
      msUpdate st.merchantSummary mTxn.merchant_id
        (fun s => { s with unmatched := s.unmatched + 1 }) }

/-- The finalized (COMPLETED) run document: SLA-breach count over the
records stamped with this run's id, the formatted `merchant_summary`
list, status COMPLETED. -/
def completedRunOf (env : Env) (runId : Nat) (st : LoopState) : Run :=
  let sla := (st.store.filter (fun t =>
    t.reconciliation_run_id == some runId && t.sla_breached)).length
  { st.run with
    summary := { st.run.summary with sla_breaches := sla }
    merchant_summary := st.merchantSummary.map (fun p =>
      { merchant_id := p.1
        merchant_name := ((findMerchant env p.1).map Prod.snd).getD "Unknown"
        stats := p.2 })
    status := RunStatus.COMPLETED }

/-- The CompletionAlert payload (the generated `run_id` string is modelled
as `REC` followed by the numeric run id). -/
def completionAlertData (runId : Nat) (run : Run) : AlertData :=
  { alert_type := "RECONCILIATION_COMPLETE"
    severity := "LOW"
    title := "Reconciliation Completed"
    message := "Reconciliation run REC" ++ toString runId ++ " completed. Matched: "
      ++ toString run.summary.matched ++ ", Unmatched: "
      ++ toString (run.summary.unmatched_bank + run.summary.unmatched_merchant)
    entity_type := "RECONCILIATION"
    entity_id := "REC" ++ toString runId }

/-- §4.4 tail of the `try` body: SLA count, merchant-summary formatting,
completion, then the completion alert (which may throw after the run has
already been saved COMPLETED). -/
def finalizeRun (env : Env) (runId : Nat) (st : LoopState) : LoopState :=
  if st.thrown.isSome then st else
  let run1 := completedRunOf env runId st
  let alert := completionAlertData runId run1
  match env.alertError alert with
  | some e => { st with run := run1, thrown := some e }
  | none => { st with run := run1, alerts := st.alerts ++ [alert] }

/-- The state after loading the pools and recording their sizes in the
summary (lines 52–65), before the matching loop. -/
def initState (cfg : Config) (store0 : List Txn) : LoopState :=
  { store := store0
    run := { initRun cfg with
      summary := { Summary.init with
        total_bank_transactions := (bankPool cfg store0).length
        total_merchant_transactions := (merchantPool cfg store0).length } }
    matchedBankIds := []
    matchedMerchantIds := []
    merchantSummary := []
    alerts := []
    thrown := none }

/-- Candidate loading followed by the matching loop over the bank pool. -/
def matchingPhase (env : Env) (cfg : Config) (runId : Nat) (store0 : List Txn) : LoopState :=
  (bankPool cfg store0).foldl
    (processBankTxn env cfg runId (merchantPool cfg store0))
    (initState cfg store0)

/-- The matching loop followed by the merchant sweep. -/
def sweepPhase (env : Env) (cfg : Config) (runId : Nat) (store0 : List Txn) : LoopState :=
  (merchantPool cfg store0).foldl (processMerchantSweep runId)
    (matchingPhase env cfg runId store0)

/-- The whole `try` body of `runReconciliation`. -/
def tryBody (env : Env) (cfg : Config) (runId : Nat) (store0 : List Txn) : LoopState :=
  finalizeRun env runId (sweepPhase env cfg runId store0)

/-- What a caller observes: the run document as first created (always
persisted, before any validation or work), the final persisted run, the
final store, the alerts created, and the re-raised exception (if any). -/
structure RunResult where
  createdRun : Run
  run : Run
  store : List Txn
  alerts : List AlertData
  rethrown : Option String
deriving DecidableEq

/-- `runReconciliation`: create the RUNNING run, execute the `try` body,
and on an exception run the `catch` block (status FAILED, error entry
appended, partial run saved, exception re-thrown). -/
def runReconciliation (env : Env) (cfg : Config) (runId : Nat)
    (store0 : List Txn) : RunResult :=
  let st := tryBody env cfg runId store0
  match st.thrown with
  | none =>
    { createdRun := initRun cfg
      run := st.run
      store := st.store
      alerts := st.alerts
      rethrown := none }
  | some e =>
    { createdRun := initRun cfg
      run := { st.run with status := RunStatus.FAILED, errors := st.run.errors ++ [e] }
      store := st.store
      alerts := st.alerts
      rethrown := some e }

/-- The reconciliation status of the stored record with a given id. -/
def txnStatusIn (store : List Txn) (id : Nat) : Option RecStatus :=
  (store.find? (fun t => t._id == id)).map (fun t => t.reconciliation_status)

/-- The `reconciled_with` field of the stored record with a given id. -/
def reconciledWithIn (store : List Txn) (id : Nat) : Option (Option Nat) :=
  (store.find? (fun t => t._id == id)).map (fun t => t.reconciled_with)

/-- The `reconciliation_run_id` field of the stored record with a given id. -/
def runIdIn (store : List Txn) (id : Nat) : Option (Option Nat) :=
  (store.find? (fun t => t._id == id)).map (fun t => t.reconciliation_run_id)

/-! ## Store-lookup lemmas -/

/-- `find?` commutes with a `map` whose function preserves the predicate. -/
theorem find?_map_of_pred {α : Type} (l : List α) (g : α → α) (p : α → Bool)
    (hg : ∀ a, p (g a) = p a) :
    (l.map g).find? p = (l.find? p).map g := by
  induction l with
  | nil => rfl
  | cons a l ih =>
    by_cases h : p a = true
    · rw [List.map_cons, List.find?_cons_of_pos _ (by rw [hg]; exact h),
        List.find?_cons_of_pos _ h]
      rfl
    · rw [List.map_cons, List.find?_cons_of_neg _ (by rw [hg]; exact h),
        List.find?_cons_of_neg _ h, ih]

/-- Looking up any id in an updated store: the found record is the
original one, rewritten when it carries the updated id. -/
theorem find?_updateTxn (store : List Txn) (id id' : Nat) (f : Txn → Txn)
    (hf : ∀ t, (f t)._id = t._id) :
    (updateTxn store id f).find? (fun t => t._id == id')
      = (store.find? (fun t => t._id == id')).map
          (fun t => if t._id == id then f t else t) := by
  refine find?_map_of_pred store _ _ (fun a => ?_)
  by_cases h : a._id = id
  · simp [h, hf]
  · simp [h]

/-- An id present in the store stays present after an id-preserving update. -/
theorem find?_updateTxn_isSome (store : List Txn) (id id' : Nat) (f : Txn → Txn)
    (hf : ∀ t, (f t)._id = t._id) :
    ((updateTxn store id f).find? (fun t => t._id == id')).isSome
      = ((store.find? (fun t => t._id == id')).isSome) := by
  rw [find?_updateTxn store id id' f hf]
  cases store.find? (fun t => t._id == id') <;> rfl

/-- Status of the updated id after an update that writes a fixed status. -/
theorem txnStatusIn_updateTxn_self (store : List Txn) (id : Nat) (f : Txn → Txn)
    (c : RecStatus) (hf : ∀ t, (f t)._id = t._id)
    (hs : ∀ t, (f t).reconciliation_status = c)
    (h : (store.find? (fun t => t._id == id)).isSome) :
    txnStatusIn (updateTxn store id f) id = some c := by
  rcases Option.isSome_iff_exists.mp h with ⟨t, ht⟩
  have hpred := List.find?_some ht
  have hid : t._id = id := by simpa using hpred
  unfold txnStatusIn
  rw [find?_updateTxn store id id f hf, ht]
  simp [hid, hs]

/-- Status of a different id is untouched by an id-preserving update. -/
theorem txnStatusIn_updateTxn_ne (store : List Txn) (id id' : Nat) (f : Txn → Txn)
    (hf : ∀ t, (f t)._id = t._id) (h : id' ≠ id) :
    txnStatusIn (updateTxn store id f) id' = txnStatusIn store id' := by
  unfold txnStatusIn
  rw [find?_updateTxn store id id' f hf]
  cases hfind : store.find? (fun t => t._id == id') with
  | none => rfl
  | some t =>
    have hpred := List.find?_some hfind
    have hid : t._id = id' := by simpa using hpred
    have : t._id ≠ id := by rw [hid]; exact h
    simp [this]

/-- `reconciled_with` of the updated id after an update writing a fixed value. -/
theorem reconciledWithIn_updateTxn_self (store : List Txn) (id : Nat) (f : Txn → Txn)
    (v : Option Nat) (hf : ∀ t, (f t)._id = t._id)
    (hs : ∀ t, (f t).reconciled_with = v)
    (h : (store.find? (fun t => t._id == id)).isSome) :
    reconciledWithIn (updateTxn store id f) id = some v := by
  rcases Option.isSome_iff_exists.mp h with ⟨t, ht⟩
  have hpred := List.find?_some ht
  have hid : t._id = id := by simpa using hpred
  unfold reconciledWithIn
  rw [find?_updateTxn store id id f hf, ht]
  simp [hid, hs]

/-- `reconciled_with` of a different id is untouched. -/
theorem reconciledWithIn_updateTxn_ne (store : List Txn) (id id' : Nat) (f : Txn → Txn)
    (hf : ∀ t, (f t)._id = t._id) (h : id' ≠ id) :
    reconciledWithIn (updateTxn store id f) id' = reconciledWithIn store id' := by
  unfold reconciledWithIn
  rw [find?_updateTxn store id id' f hf]
  cases hfind : store.find? (fun t => t._id == id') with
  | none => rfl
  | some t =>
    have hpred := List.find?_some hfind
    have hid : t._id = id' := by simpa using hpred
    have : t._id ≠ id := by rw [hid]; exact h
    simp [this]

/-- `reconciliation_run_id` of the updated id after an update writing a fixed value. -/
theorem runIdIn_updateTxn_self (store : List Txn) (id : Nat) (f : Txn → Txn)
    (v : Option Nat) (hf : ∀ t, (f t)._id = t._id)
    (hs : ∀ t, (f t).reconciliation_run_id = v)
    (h : (store.find? (fun t => t._id == id)).isSome) :
    runIdIn (updateTxn store id f) id = some v := by
  rcases Option.isSome_iff_exists.mp h with ⟨t, ht⟩
  have hpred := List.find?_some ht
  have hid : t._id = id := by simpa using hpred
  unfold runIdIn
  rw [find?_updateTxn store id id f hf, ht]
  simp [hid, hs]

/-- `reconciliation_run_id` of a different id is untouched. -/
theorem runIdIn_updateTxn_ne (store : List Txn) (id id' : Nat) (f : Txn → Txn)
    (hf : ∀ t, (f t)._id = t._id) (h : id' ≠ id) :
    runIdIn (updateTxn store id f) id' = runIdIn store id' := by
  unfold runIdIn
  rw [find?_updateTxn store id id' f hf]
  cases hfind : store.find? (fun t => t._id == id') with
  | none => rfl
  | some t =>
    have hpred := List.find?_some hfind
    have hid : t._id = id' := by simpa using hpred
    have : t._id ≠ id := by rw [hid]; exact h
    simp [this]

/-! ## Merchant-summary map lemmas -/

/-- Updating a merchant's entry applies `f` to its (possibly default) stats. -/
theorem msGet_msUpdate_self (ms : List (String × MStats)) (mid : String)
    (f : MStats → MStats) :
    msGet (msUpdate ms mid f) mid = f (msGet ms mid) := by
  unfold msUpdate msGet
  rw [find?_map_of_pred _ _ _ (fun p => by by_cases h : p.1 = mid <;> simp [h])]
  unfold msEnsure
  by_cases h : ms.any (fun p => p.1 == mid) = true
  · rw [if_pos h]
    rcases List.any_eq_true.mp h with ⟨p, hp, hpred⟩
    have hsome : (ms.find? (fun p => p.1 == mid)).isSome :=
      List.find?_isSome.mpr ⟨p, hp, hpred⟩
    rcases Option.isSome_iff_exists.mp hsome with ⟨q, hq⟩
    have hqpred := List.find?_some hq
    have hq1 : q.1 = mid := by simpa using hqpred
    rw [hq]
    simp [hq1]
  · rw [if_neg h]
    have hnone : ms.find? (fun p => p.1 == mid) = none := by
      rw [List.find?_eq_none]
      intro p hp hpred
      exact h (List.any_eq_true.mpr ⟨p, hp, hpred⟩)
    rw [List.find?_append, hnone]
    simp [MStats.init]

/-- Updating one merchant's entry leaves every other merchant's stats alone. -/
theorem msGet_msUpdate_ne (ms : List (String × MStats)) (mid mid' : String)
    (f : MStats → MStats) (h : mid' ≠ mid) :
    msGet (msUpdate ms mid f) mid' = msGet ms mid' := by
  unfold msUpdate msGet
  rw [find?_map_of_pred _ _ _ (fun p => by by_cases hp : p.1 = mid <;> simp [hp])]
  unfold msEnsure
  by_cases hany : ms.any (fun p => p.1 == mid) = true
  · rw [if_pos hany]
    cases hfind : ms.find? (fun p => p.1 == mid') with
    | none => rfl
    | some q =>
      have hq1 : q.1 = mid' := by simpa using List.find?_some hfind
      have : q.1 ≠ mid := by rw [hq1]; exact h
      simp [this]
  · rw [if_neg hany, List.find?_append]
    cases hfind : ms.find? (fun p => p.1 == mid') with
    | none =>
      simp only [Option.none_or]
      have : ((mid, MStats.init).1 == mid') = false := by
        simpa using fun hc => h hc.symm
      simp [List.find?, this]
    | some q =>
      have hq1 : q.1 = mid' := by simpa using List.find?_some hfind
      have : q.1 ≠ mid := by rw [hq1]; exact h
      simp [this]

/-! ## Thrown-state book-keeping -/

/-- An already-raised exception makes the bank-loop iteration a no-op. -/
theorem processBankTxn_thrown (env : Env) (cfg : Config) (runId : Nat)
    (pool : List Txn) (st : LoopState) (b : Txn) (h : st.thrown.isSome) :
    processBankTxn env cfg runId pool st b = st := by
  unfold processBankTxn
  rw [if_pos h]

/-- An already-raised exception freezes the whole bank loop. -/
theorem foldl_processBankTxn_thrown (env : Env) (cfg : Config) (runId : Nat)
    (pool : List Txn) (l : List Txn) (st : LoopState) (h : st.thrown.isSome) :
    l.foldl (processBankTxn env cfg runId pool) st = st := by
  induction l with
  | nil => rfl
  | cons a l ih =>
    rw [List.foldl_cons, processBankTxn_thrown env cfg runId pool st a h, ih]

/-- The merchant sweep never raises: it propagates `thrown` unchanged. -/
theorem processMerchantSweep_thrown (runId : Nat) (st : LoopState) (m : Txn) :
    (processMerchantSweep runId st m).thrown = st.thrown := by
  unfold processMerchantSweep
  by_cases h : st.thrown.isSome
  · rw [if_pos h]
  · rw [if_neg h]
    split
    · rfl
    · rfl

/-- `thrown` after the whole sweep is `thrown` before it. -/
theorem foldl_processMerchantSweep_thrown (runId : Nat) (l : List Txn) (st : LoopState) :
    (l.foldl (processMerchantSweep runId) st).thrown = st.thrown := by
  induction l generalizing st with
  | nil => rfl
  | cons a l ih =>
    rw [List.foldl_cons, ih, processMerchantSweep_thrown]

/-- The unknown-merchant check touches only `summary.unknown_merchants`. -/
theorem unknownMerchantCheck_spec (env : Env) (st : LoopState) (b : Txn) :
    (unknownMerchantCheck env st b).store = st.store ∧
    (unknownMerchantCheck env st b).merchantSummary = st.merchantSummary ∧
    (unknownMerchantCheck env st b).thrown = st.thrown ∧
    (unknownMerchantCheck env st b).run.summary.matched = st.run.summary.matched ∧
    (unknownMerchantCheck env st b).run.summary.amount_mismatch
      = st.run.summary.amount_mismatch ∧
    (unknownMerchantCheck env st b).run.summary.unmatched_bank
      = st.run.summary.unmatched_bank ∧
    (unknownMerchantCheck env st b).run.summary.total_bank_transactions
      = st.run.summary.total_bank_transactions ∧
    (unknownMerchantCheck env st b).run.amounts = st.run.amounts ∧
    (unknownMerchantCheck env st b).matchedMerchantIds = st.matchedMerchantIds := by
  unfold unknownMerchantCheck
  by_cases h : st.thrown.isSome
  · rw [if_pos h]
    exact ⟨rfl, rfl, rfl, rfl, rfl, rfl, rfl, rfl, rfl⟩
  · rw [if_neg h]
    cases findMerchant env b.merchant_id with
    | none => exact ⟨rfl, rfl, rfl, rfl, rfl, rfl, rfl, rfl, rfl⟩
    | some m => exact ⟨rfl, rfl, rfl, rfl, rfl, rfl, rfl, rfl, rfl⟩

/-! ## Concrete scenarios -/

/-- A fresh PENDING bank-side record with the given identifiers, amount and
timestamp. -/
def mkBank (id : Nat) (tid mid : String) (amt date : Int) : Txn :=
  { _id := id
    transaction_id := tid
    merchant_id := mid
    amount := amt
    transaction_date := date
    source := Side.BANK
    reconciliation_status := RecStatus.PENDING
    reconciled_with := none
    reconciliation_run_id := none
    is_disputed := false
    dispute_reason := none
    dispute_amount := none
    sla_breached := false }

/-- The merchant-side counterpart of `mkBank`. -/
def mkMerch (id : Nat) (tid mid : String) (amt date : Int) : Txn :=
  { mkBank id tid mid amt date with source := Side.MERCHANT }

/-- A registry knowing merchant M1, with alert persistence that always
succeeds. -/
def envOk : Env :=
  { merchants := [("M1", "Merchant One")], alertError := fun _ => none }

/-- The controller's request-body defaults: window 24, tolerance 0, no
merchant filters, no date range. -/
def defaultConfig : Config :=
  { date_window_hours := 24
    amount_tolerance := 0
    include_merchants := []
    exclude_merchants := []
    start_date := none
    end_date := none }

/-- Equal amounts on both sides, but 48 h apart so that the exact path's
date window (24 h) rejects the candidate and the fallback handles it. -/
def storeTolZero : List Txn :=
  [mkBank 1 "T1" "M1" 1000 0, mkMerch 2 "T1" "M1" 1000 172800000]

/-- Scenario E of the spec: tolerance 100, bank amount 1000, merchant
amount 1080 (diff 80), same timestamps. -/
def cfgScenarioE : Config := { defaultConfig with amount_tolerance := 100 }

/-- Scenario E store. -/
def storeScenarioE : List Txn :=
  [mkBank 1 "T5" "M1" 1000 0, mkMerch 2 "T5" "M1" 1080 0]

/-- A config with a date range `[0, 1000000]` and tolerance 10. -/
def cfgRange : Config :=
  { defaultConfig with
    amount_tolerance := 10
    start_date := some 0
    end_date := some 1000000 }

/-- A bank record inside the date range and a merchant-side record far
outside it (so it is not loaded into the merchant pool), sharing
transaction id and merchant id with a 5-unit amount difference. -/
def storeRange : List Txn :=
  [mkBank 1 "T9" "M1" 1000 500, mkMerch 2 "T9" "M1" 1005 999999999]

/-- An exactly matching BANK/MERCHANT pair, 2 h apart. -/
def storeExactPair : List Txn :=
  [mkBank 1 "T1" "M1" 1000 0, mkMerch 2 "T1" "M1" 1000 7200000]

/-- An environment in which persisting the completion alert raises. -/
def envCompletionFail : Env :=
  { merchants := [("M1", "Merchant One")]
    alertError := fun a =>
      if a.alert_type == "RECONCILIATION_COMPLETE" then some "alert save failed"
      else none }

/-- An environment in which persisting a dispute alert raises. -/
def envDisputeFail : Env :=
  { merchants := [("M1", "Merchant One")]
    alertError := fun a =>
      if a.alert_type == "DISPUTE_DETECTED" then some "dispute alert failed"
      else none }

/-- Two bank records: the first one matches exactly, the second one hits
the amount-mismatch branch, whose dispute alert raises mid-loop. -/
def storeDisputeFail : List Txn :=
  [mkBank 1 "T1" "M1" 1000 0, mkMerch 2 "T1" "M1" 1000 0,
   mkBank 3 "T2" "M1" 500 0, mkMerch 4 "T2" "M1" 700 0]

/-- An (invalid) configuration with a negative amount tolerance. -/
def cfgNegTol : Config := { defaultConfig with amount_tolerance := -1 }

/-! ## C4 -/

/-- C4 (amended): `runReconciliation` performs no up-front validation at
all — for every configuration, valid or not, a ReconciliationRun document
with status RUNNING is created before any other work. -/
theorem C4_run_created_running (env : Env) (cfg : Config) (runId : Nat)
    (store0 : List Txn) :
    (runReconciliation env cfg runId store0).createdRun.status = RunStatus.RUNNING := by
  unfold runReconciliation
  cases h : (tryBody env cfg runId store0).thrown <;> simp [h, initRun]

/-- C4 counterexample: with a negative `amount_tolerance` (an invalid
configuration), a RUNNING run is still created — and even completes —
refuting "run never reaches RUNNING for invalid configurations". -/
theorem C4_counterexample :
    cfgNegTol.amount_tolerance < 0 ∧
    (runReconciliation envOk cfgNegTol 7 []).createdRun.status = RunStatus.RUNNING ∧
    (runReconciliation envOk cfgNegTol 7 []).run.status = RunStatus.COMPLETED := by
  decide

/-! ## C9 -/

/-- C9: the fallback fuzzy query filters only by source, transaction id,
merchant id and PENDING status — not by the run's date range — so a
still-PENDING merchant-side record outside the configured `dateRange`
(hence absent from the loaded merchant pool, which here is empty) is
claimed by the fallback and ends MATCHED. -/
theorem C9_fallback_ignores_filters :
    cfgRange.start_date = some 0 ∧ cfgRange.end_date = some 1000000 ∧
    (storeRange.find? (fun t => t._id == 2)).map (fun t => t.transaction_date)
      = some 999999999 ∧
    txnStatusIn storeRange 2 = some RecStatus.PENDING ∧
    merchantPool cfgRange storeRange = [] ∧
    txnStatusIn (runReconciliation envOk cfgRange 7 storeRange).store 2
      = some RecStatus.MATCHED ∧
    (runReconciliation envOk cfgRange 7 storeRange).run.status
      = RunStatus.COMPLETED := by
  decide

/-! ## Counterexamples to the claims refuted by the code -/

/-- C1 counterexample: `amount_tolerance = 0` and `diff = 0` on the
fallback path (equal amounts, outside the date window).  The claim
demands MATCHED with `summary.matched` incremented; the code's
`amount_tolerance > 0 && diff <= amount_tolerance` guard fails, so both
records end AMOUNT_MISMATCH and `matched` stays 0. -/
theorem C1_counterexample :
    defaultConfig.amount_tolerance = 0 ∧
    ((1000 : Int) - 1000).natAbs = 0 ∧
    txnStatusIn (runReconciliation envOk defaultConfig 7 storeTolZero).store 1
      = some RecStatus.AMOUNT_MISMATCH ∧
    txnStatusIn (runReconciliation envOk defaultConfig 7 storeTolZero).store 2
      = some RecStatus.AMOUNT_MISMATCH ∧
    (runReconciliation envOk defaultConfig 7 storeTolZero).run.summary.matched = 0 ∧
    (runReconciliation envOk defaultConfig 7 storeTolZero).run.summary.amount_mismatch
      = 1 := by
  decide

/-- C2 counterexample: matching fully succeeds (one exact match), but
persisting the CompletionAlert raises; the exception reaches the `catch`
block, so the run ends FAILED, not COMPLETED — refuting "failure to
notify must not fail the run". -/
theorem C2_counterexample :
    (runReconciliation envCompletionFail defaultConfig 7 storeExactPair).run.summary.matched
      = 1 ∧
    (runReconciliation envCompletionFail defaultConfig 7 storeExactPair).run.status
      = RunStatus.FAILED ∧
    (runReconciliation envCompletionFail defaultConfig 7 storeExactPair).rethrown
      = some "alert save failed" := by
  decide

/-- C3 counterexample: a tolerant match (Scenario E data) sets both
records MATCHED, yet `reconciled_with` remains unset on both (the
tolerant branch's `updateMany` writes only status and run id), so the
MATCHED records have no `matchedWith` counterpart. -/
theorem C3_counterexample :
    (runReconciliation envOk cfgScenarioE 7 storeScenarioE).run.status
      = RunStatus.COMPLETED ∧
    txnStatusIn (runReconciliation envOk cfgScenarioE 7 storeScenarioE).store 1
      = some RecStatus.MATCHED ∧
    txnStatusIn (runReconciliation envOk cfgScenarioE 7 storeScenarioE).store 2
      = some RecStatus.MATCHED ∧
    reconciledWithIn (runReconciliation envOk cfgScenarioE 7 storeScenarioE).store 1
      = some none ∧
    reconciledWithIn (runReconciliation envOk cfgScenarioE 7 storeScenarioE).store 2
      = some none := by
  decide

/-- C5 counterexample: in Scenario E the records do become MATCHED, but
`amounts.total_matched_amount` stays 0 — it does not increase by the bank
amount 1000, because the tolerant branch never touches `amounts`. -/
theorem C5_counterexample :
    txnStatusIn (runReconciliation envOk cfgScenarioE 7 storeScenarioE).store 1
      = some RecStatus.MATCHED ∧
    (runReconciliation envOk cfgScenarioE 7 storeScenarioE).run.amounts.total_matched_amount
      = 0 ∧
    (0 : Int) ≠ 1000 := by
  decide

/-- C5 (amended): Scenario E with the code's actual bookkeeping — both
records MATCHED (tolerant), `summary.matched` incremented, but
`amounts.total_matched_amount` unchanged (the tolerant branch adds
neither the bank nor the merchant amount). -/
theorem C5_scenarioE :
    txnStatusIn (runReconciliation envOk cfgScenarioE 7 storeScenarioE).store 1
      = some RecStatus.MATCHED ∧
    txnStatusIn (runReconciliation envOk cfgScenarioE 7 storeScenarioE).store 2
      = some RecStatus.MATCHED ∧
    (runReconciliation envOk cfgScenarioE 7 storeScenarioE).run.summary.matched = 1 ∧
    (runReconciliation envOk cfgScenarioE 7 storeScenarioE).run.amounts.total_matched_amount
      = 0 ∧
    (runReconciliation envOk cfgScenarioE 7 storeScenarioE).run.status
      = RunStatus.COMPLETED := by
  decide

/-- C6 counterexample: with the `cfgRange` date filter, the fallback
claims a merchant record outside the loaded merchant pool, so the
merchant-side analogue of the conservation inequality fails:
`matched + unmatched_merchant + amount_mismatch = 1 > 0 = total_merchant`. -/
theorem C6_counterexample :
    ¬ ((runReconciliation envOk cfgRange 7 storeRange).run.summary.matched
        + (runReconciliation envOk cfgRange 7 storeRange).run.summary.unmatched_merchant
        + (runReconciliation envOk cfgRange 7 storeRange).run.summary.amount_mismatch
      ≤ (runReconciliation envOk cfgRange 7 storeRange).run.summary.total_merchant_transactions) := by
  decide

/-! ## Per-branch status lemmas -/

/-- A passing tolerance test selects the within-tolerance branch. -/
theorem fuzzyStep_pos (env : Env) (cfg : Config) (runId : Nat) (st : LoopState)
    (bankTxn mismatchTxn : Txn)
    (h : 0 < cfg.amount_tolerance ∧
      ((bankTxn.amount - mismatchTxn.amount).natAbs : Int) ≤ cfg.amount_tolerance) :
    fuzzyStep env cfg runId st bankTxn mismatchTxn
      = tolerantMatchStep runId st bankTxn mismatchTxn := by
  unfold fuzzyStep
  rw [if_pos h]

/-- A failing tolerance test selects the amount-mismatch branch. -/
theorem fuzzyStep_neg (env : Env) (cfg : Config) (runId : Nat) (st : LoopState)
    (bankTxn mismatchTxn : Txn)
    (h : ¬(0 < cfg.amount_tolerance ∧
      ((bankTxn.amount - mismatchTxn.amount).natAbs : Int) ≤ cfg.amount_tolerance)) :
    fuzzyStep env cfg runId st bankTxn mismatchTxn
      = mismatchStep env runId st bankTxn mismatchTxn := by
  unfold fuzzyStep
  rw [if_neg h]

/-- After the two per-pair updates, both ids carry the written status
(also when the two ids coincide). -/
theorem txnStatusIn_double_update (store : List Txn) (b m : Nat) (f g : Txn → Txn)
    (c : RecStatus)
    (hfid : ∀ t, (f t)._id = t._id) (hgid : ∀ t, (g t)._id = t._id)
    (hfs : ∀ t, (f t).reconciliation_status = c)
    (hgs : ∀ t, (g t).reconciliation_status = c)
    (hb : (store.find? (fun t => t._id == b)).isSome)
    (hm : (store.find? (fun t => t._id == m)).isSome) :
    txnStatusIn (updateTxn (updateTxn store b f) m g) b = some c ∧
    txnStatusIn (updateTxn (updateTxn store b f) m g) m = some c := by
  constructor
  · by_cases h : b = m
    · subst h
      refine txnStatusIn_updateTxn_self _ _ _ _ hgid hgs ?_
      rw [find?_updateTxn_isSome _ _ _ _ hfid]
      exact hb
    · rw [txnStatusIn_updateTxn_ne _ _ _ _ hgid h]
      exact txnStatusIn_updateTxn_self _ _ _ _ hfid hfs hb
  · refine txnStatusIn_updateTxn_self _ _ _ _ hgid hgs ?_
    rw [find?_updateTxn_isSome _ _ _ _ hfid]
    exact hm

/-- The tolerant branch sets both records MATCHED and bumps
`summary.matched`, leaving `amounts` untouched. -/
theorem tolerantMatchStep_status (runId : Nat) (st : LoopState)
    (bankTxn mismatchTxn : Txn)
    (hb : (st.store.find? (fun t => t._id == bankTxn._id)).isSome)
    (hm : (st.store.find? (fun t => t._id == mismatchTxn._id)).isSome) :
    txnStatusIn (tolerantMatchStep runId st bankTxn mismatchTxn).store bankTxn._id
      = some RecStatus.MATCHED ∧
    txnStatusIn (tolerantMatchStep runId st bankTxn mismatchTxn).store mismatchTxn._id
      = some RecStatus.MATCHED ∧
    (tolerantMatchStep runId st bankTxn mismatchTxn).run.summary.matched
      = st.run.summary.matched + 1 ∧
    (tolerantMatchStep runId st bankTxn mismatchTxn).run.amounts = st.run.amounts := by
  have h := txnStatusIn_double_update st.store bankTxn._id mismatchTxn._id
    (fun t => { t with reconciliation_status := RecStatus.MATCHED
                       reconciliation_run_id := some runId })
    (fun t => { t with reconciliation_status := RecStatus.MATCHED
                       reconciliation_run_id := some runId })
    RecStatus.MATCHED (fun t => rfl) (fun t => rfl) (fun t => rfl) (fun t => rfl) hb hm
  exact ⟨h.1, h.2, rfl, rfl⟩

/-- The mismatch branch sets both records AMOUNT_MISMATCH and bumps
`summary.amount_mismatch`, whether or not the dispute alert then raises
(the record updates and counter increments precede `createAlert`). -/
theorem mismatchStep_status (env : Env) (runId : Nat) (st : LoopState)
    (bankTxn mismatchTxn : Txn)
    (hb : (st.store.find? (fun t => t._id == bankTxn._id)).isSome)
    (hm : (st.store.find? (fun t => t._id == mismatchTxn._id)).isSome) :
    txnStatusIn (mismatchStep env runId st bankTxn mismatchTxn).store bankTxn._id
      = some RecStatus.AMOUNT_MISMATCH ∧
    txnStatusIn (mismatchStep env runId st bankTxn mismatchTxn).store mismatchTxn._id
      = some RecStatus.AMOUNT_MISMATCH ∧
    (mismatchStep env runId st bankTxn mismatchTxn).run.summary.amount_mismatch
      = st.run.summary.amount_mismatch + 1 := by
  have h := txnStatusIn_double_update st.store bankTxn._id mismatchTxn._id
    (fun t => { t with reconciliation_status := RecStatus.AMOUNT_MISMATCH
                       is_disputed := true
                       dispute_reason := some ("Amount mismatch: Bank "
                         ++ toString bankTxn.amount ++ " vs Merchant "
                         ++ toString mismatchTxn.amount)
                       dispute_amount :=
                         some ((bankTxn.amount - mismatchTxn.amount).natAbs : Int)
                       reconciliation_run_id := some runId })
    (fun t => { t with reconciliation_status := RecStatus.AMOUNT_MISMATCH
                       is_disputed := true
                       dispute_reason := some ("Amount mismatch: Bank "
                         ++ toString bankTxn.amount ++ " vs Merchant "
                         ++ toString mismatchTxn.amount)
                       dispute_amount :=
                         some ((bankTxn.amount - mismatchTxn.amount).natAbs : Int)
                       reconciliation_run_id := some runId })
    RecStatus.AMOUNT_MISMATCH (fun t => rfl) (fun t => rfl) (fun t => rfl) (fun t => rfl)
    hb hm
  simp only [mismatchStep]
  cases env.alertError (disputeAlertData bankTxn mismatchTxn) with
  | some e => exact ⟨h.1, h.2, rfl⟩
  | none => exact ⟨h.1, h.2, rfl⟩

/-! ## C3 -/

/-- C3 (amended): when the exact-key path matches `bankTxn` with the first
valid candidate, both records end MATCHED with `reconciled_with` pointing
at each other and both carry this run's id.  (Tolerant fallback matches
set MATCHED and the run id but leave `reconciled_with` unset — see the
counterexample.) -/
theorem C3_exact_pairing_integrity
    (env : Env) (cfg : Config) (runId : Nat) (pool : List Txn)
    (st : LoopState) (bankTxn matchedMerchant : Txn) (rest : List Txn)
    (h0 : st.thrown = none)
    (hv : validMatchesFor cfg.date_window_hours st.matchedMerchantIds bankTxn
        (merchantTxnMapGet pool (txnKey bankTxn)) = matchedMerchant :: rest)
    (hb : (st.store.find? (fun t => t._id == bankTxn._id)).isSome)
    (hm : (st.store.find? (fun t => t._id == matchedMerchant._id)).isSome)
    (hne : bankTxn._id ≠ matchedMerchant._id) :
    txnStatusIn (processBankTxn env cfg runId pool st bankTxn).store bankTxn._id
      = some RecStatus.MATCHED ∧
    reconciledWithIn (processBankTxn env cfg runId pool st bankTxn).store bankTxn._id
      = some (some matchedMerchant._id) ∧
    runIdIn (processBankTxn env cfg runId pool st bankTxn).store bankTxn._id
      = some (some runId) ∧
    txnStatusIn (processBankTxn env cfg runId pool st bankTxn).store matchedMerchant._id
      = some RecStatus.MATCHED ∧
    reconciledWithIn (processBankTxn env cfg runId pool st bankTxn).store matchedMerchant._id
      = some (some bankTxn._id) ∧
    runIdIn (processBankTxn env cfg runId pool st bankTxn).store matchedMerchant._id
      = some (some runId) := by
  have hred : processBankTxn env cfg runId pool st bankTxn
      = unknownMerchantCheck env (exactMatchStep runId st bankTxn matchedMerchant)
          bankTxn := by
    unfold processBankTxn
    rw [h0, hv]
    rfl
  rw [hred,
    (unknownMerchantCheck_spec env (exactMatchStep runId st bankTxn matchedMerchant)
      bankTxn).1]
  simp only [exactMatchStep]
  refine ⟨?_, ?_, ?_, ?_, ?_, ?_⟩
  · rw [txnStatusIn_updateTxn_ne _ matchedMerchant._id bankTxn._id
        (fun t =>
          { t with reconciliation_status := RecStatus.MATCHED
                   reconciled_with := some bankTxn._id
                   reconciliation_run_id := some runId })
        (fun t => rfl) hne]
    exact txnStatusIn_updateTxn_self _ _ _ _ (fun t => rfl) (fun t => rfl) hb
  · rw [reconciledWithIn_updateTxn_ne _ matchedMerchant._id bankTxn._id
        (fun t =>
          { t with reconciliation_status := RecStatus.MATCHED
                   reconciled_with := some bankTxn._id
                   reconciliation_run_id := some runId })
        (fun t => rfl) hne]
    exact reconciledWithIn_updateTxn_self _ _ _ _ (fun t => rfl) (fun t => rfl) hb
  · rw [runIdIn_updateTxn_ne _ matchedMerchant._id bankTxn._id
        (fun t =>
          { t with reconciliation_status := RecStatus.MATCHED
                   reconciled_with := some bankTxn._id
                   reconciliation_run_id := some runId })
        (fun t => rfl) hne]
    exact runIdIn_updateTxn_self _ _ _ _ (fun t => rfl) (fun t => rfl) hb
  · refine txnStatusIn_updateTxn_self _ _ _ _ (fun t => rfl) (fun t => rfl) ?_
    rw [find?_updateTxn_isSome _ bankTxn._id matchedMerchant._id
        (fun t =>
          { t with reconciliation_status := RecStatus.MATCHED
                   reconciled_with := some matchedMerchant._id
                   reconciliation_run_id := some runId })
        (fun t => rfl)]
    exact hm
  · refine reconciledWithIn_updateTxn_self _ _ _ _ (fun t => rfl) (fun t => rfl) ?_
    rw [find?_updateTxn_isSome _ bankTxn._id matchedMerchant._id
        (fun t =>
          { t with reconciliation_status := RecStatus.MATCHED
                   reconciled_with := some matchedMerchant._id
                   reconciliation_run_id := some runId })
        (fun t => rfl)]
    exact hm
  · refine runIdIn_updateTxn_self _ _ _ _ (fun t => rfl) (fun t => rfl) ?_
    rw [find?_updateTxn_isSome _ bankTxn._id matchedMerchant._id
        (fun t =>
          { t with reconciliation_status := RecStatus.MATCHED
                   reconciled_with := some matchedMerchant._id
                   reconciliation_run_id := some runId })
        (fun t => rfl)]
    exact hm

/-- C3 witness: the exact pair of `storeExactPair`, processed from the
initial loop state, leaves the bank record MATCHED with the counterpart
recorded. -/
theorem C3_exact_pairing_integrity_witness :
    (initState defaultConfig storeExactPair).thrown = none ∧
    txnStatusIn (processBankTxn envOk defaultConfig 7
        (merchantPool defaultConfig storeExactPair)
        (initState defaultConfig storeExactPair)
        (mkBank 1 "T1" "M1" 1000 0)).store 1 = some RecStatus.MATCHED ∧
    reconciledWithIn (processBankTxn envOk defaultConfig 7
        (merchantPool defaultConfig storeExactPair)
        (initState defaultConfig storeExactPair)
        (mkBank 1 "T1" "M1" 1000 0)).store 1 = some (some 2) :=
  ⟨by decide,
   (C3_exact_pairing_integrity envOk defaultConfig 7
      (merchantPool defaultConfig storeExactPair)
      (initState defaultConfig storeExactPair)
      (mkBank 1 "T1" "M1" 1000 0) (mkMerch 2 "T1" "M1" 1000 7200000) []
      (by decide) (by decide) (by decide) (by decide) (by decide)).1,
   (C3_exact_pairing_integrity envOk defaultConfig 7
      (merchantPool defaultConfig storeExactPair)
      (initState defaultConfig storeExactPair)
      (mkBank 1 "T1" "M1" 1000 0) (mkMerch 2 "T1" "M1" 1000 7200000) []
      (by decide) (by decide) (by decide) (by decide) (by decide)).2.1⟩

/-! ## C1 -/

/-- C1 (amended): on the fallback path with a candidate found, the code's
guard is `amount_tolerance > 0 && diff <= amount_tolerance`.  So: with a
positive tolerance, `diff ≤ tolerance` gives MATCHED on both records and
increments `summary.matched`; `diff = tolerance + 1` gives
AMOUNT_MISMATCH on both and increments `summary.amount_mismatch`; and
with `tolerance = 0` every fallback candidate — including `diff = 0` —
is set to AMOUNT_MISMATCH. -/
theorem C1_fallback_tolerance_boundary
    (env : Env) (cfg : Config) (runId : Nat) (pool : List Txn)
    (st : LoopState) (bankTxn mismatchTxn : Txn) (rest : List Txn)
    (h0 : st.thrown = none)
    (hv : validMatchesFor cfg.date_window_hours st.matchedMerchantIds bankTxn
        (merchantTxnMapGet pool (txnKey bankTxn)) = [])
    (hq : fuzzyQuery st.store bankTxn = mismatchTxn :: rest)
    (hb : (st.store.find? (fun t => t._id == bankTxn._id)).isSome) :
    ((0 < cfg.amount_tolerance ∧
        ((bankTxn.amount - mismatchTxn.amount).natAbs : Int) ≤ cfg.amount_tolerance) →
      txnStatusIn (processBankTxn env cfg runId pool st bankTxn).store bankTxn._id
        = some RecStatus.MATCHED ∧
      txnStatusIn (processBankTxn env cfg runId pool st bankTxn).store mismatchTxn._id
        = some RecStatus.MATCHED ∧
      (processBankTxn env cfg runId pool st bankTxn).run.summary.matched
        = st.run.summary.matched + 1) ∧
    (((bankTxn.amount - mismatchTxn.amount).natAbs : Int) = cfg.amount_tolerance + 1 →
      txnStatusIn (processBankTxn env cfg runId pool st bankTxn).store bankTxn._id
        = some RecStatus.AMOUNT_MISMATCH ∧
      txnStatusIn (processBankTxn env cfg runId pool st bankTxn).store mismatchTxn._id
        = some RecStatus.AMOUNT_MISMATCH ∧
      (processBankTxn env cfg runId pool st bankTxn).run.summary.amount_mismatch
        = st.run.summary.amount_mismatch + 1) ∧
    (cfg.amount_tolerance = 0 →
      txnStatusIn (processBankTxn env cfg runId pool st bankTxn).store bankTxn._id
        = some RecStatus.AMOUNT_MISMATCH ∧
      txnStatusIn (processBankTxn env cfg runId pool st bankTxn).store mismatchTxn._id
        = some RecStatus.AMOUNT_MISMATCH) := by
  have hmem : mismatchTxn ∈ st.store := by
    have hin : mismatchTxn ∈ fuzzyQuery st.store bankTxn := by
      rw [hq]; exact List.mem_cons_self _ _
    exact List.mem_of_mem_filter hin
  have hm : (st.store.find? (fun t => t._id == mismatchTxn._id)).isSome :=
    List.find?_isSome.mpr ⟨mismatchTxn, hmem, by simp⟩
  have hred : processBankTxn env cfg runId pool st bankTxn
      = unknownMerchantCheck env
          (fuzzyStep env cfg runId st bankTxn mismatchTxn) bankTxn := by
    unfold processBankTxn
    rw [h0, hv, hq]
    rfl
  refine ⟨fun hcond => ?_, fun hdiff => ?_, fun htol => ?_⟩
  · rw [hred, fuzzyStep_pos env cfg runId st bankTxn mismatchTxn hcond]
    have hs := unknownMerchantCheck_spec env
      (tolerantMatchStep runId st bankTxn mismatchTxn) bankTxn
    rw [hs.1, hs.2.2.2.1]
    have ht := tolerantMatchStep_status runId st bankTxn mismatchTxn hb hm
    exact ⟨ht.1, ht.2.1, ht.2.2.1⟩
  · have hcond : ¬(0 < cfg.amount_tolerance ∧
        ((bankTxn.amount - mismatchTxn.amount).natAbs : Int) ≤ cfg.amount_tolerance) := by
      rintro ⟨h1, h2⟩
      rw [hdiff] at h2
      omega
    rw [hred, fuzzyStep_neg env cfg runId st bankTxn mismatchTxn hcond]
    have hs := unknownMerchantCheck_spec env
      (mismatchStep env runId st bankTxn mismatchTxn) bankTxn
    rw [hs.1, hs.2.2.2.2.1]
    have hms := mismatchStep_status env runId st bankTxn mismatchTxn hb hm
    exact ⟨hms.1, hms.2.1, hms.2.2⟩
  · have hcond : ¬(0 < cfg.amount_tolerance ∧
        ((bankTxn.amount - mismatchTxn.amount).natAbs : Int) ≤ cfg.amount_tolerance) := by
      rintro ⟨h1, h2⟩
      omega
    rw [hred, fuzzyStep_neg env cfg runId st bankTxn mismatchTxn hcond]
    have hs := unknownMerchantCheck_spec env
      (mismatchStep env runId st bankTxn mismatchTxn) bankTxn
    rw [hs.1]
    have hms := mismatchStep_status env runId st bankTxn mismatchTxn hb hm
    exact ⟨hms.1, hms.2.1⟩

/-- C1 witness: the zero-tolerance scenario (equal amounts, outside the
date window) hits the third conjunct: the bank record ends
AMOUNT_MISMATCH. -/
theorem C1_fallback_tolerance_boundary_witness :
    defaultConfig.amount_tolerance = 0 ∧
    txnStatusIn (processBankTxn envOk defaultConfig 7
        (merchantPool defaultConfig storeTolZero)
        (initState defaultConfig storeTolZero)
        (mkBank 1 "T1" "M1" 1000 0)).store 1 = some RecStatus.AMOUNT_MISMATCH :=
  ⟨by decide,
   ((C1_fallback_tolerance_boundary envOk defaultConfig 7
      (merchantPool defaultConfig storeTolZero)
      (initState defaultConfig storeTolZero)
      (mkBank 1 "T1" "M1" 1000 0) (mkMerch 2 "T1" "M1" 1000 172800000) []
      (by decide) (by decide) (by decide) (by decide)).2.2 (by decide)).1⟩

/-! ## Catch-block behaviour -/

/-- `completedRunOf` copies the error list unchanged. -/
theorem completedRunOf_errors (env : Env) (runId : Nat) (st : LoopState) :
    (completedRunOf env runId st).errors = st.run.errors := rfl

/-- When finalization reaches the completion alert and persisting it
raises, the run document is the COMPLETED one but the exception is now
pending. -/
theorem finalizeRun_alert_fails (env : Env) (runId : Nat) (st : LoopState) (e : String)
    (h1 : st.thrown = none)
    (h2 : env.alertError (completionAlertData runId (completedRunOf env runId st))
      = some e) :
    finalizeRun env runId st
      = { st with run := completedRunOf env runId st, thrown := some e } := by
  simp only [finalizeRun, h1, h2]
  rfl

/-- The `catch` block: a pending exception in the `try` body yields a
FAILED run with the message appended to `errors`, the store as of the
failure point, and the exception re-raised. -/
theorem runReconciliation_catch (env : Env) (cfg : Config) (runId : Nat)
    (store0 : List Txn) (e : String)
    (h : (tryBody env cfg runId store0).thrown = some e) :
    runReconciliation env cfg runId store0
      = { createdRun := initRun cfg
          run := { (tryBody env cfg runId store0).run with
                   status := RunStatus.FAILED
                   errors := (tryBody env cfg runId store0).run.errors ++ [e] }
          store := (tryBody env cfg runId store0).store
          alerts := (tryBody env cfg runId store0).alerts
          rethrown := some e } := by
  simp only [runReconciliation, h]

/-! ## C2 -/

/-- C2 (amended): a failure persisting the CompletionAlert is not
swallowed — `Alert.createAlert` is awaited inside the `try` block, so
even when matching fully succeeded the exception reaches the `catch`
handler: the run ends FAILED, the message is recorded in `errors`, and
the exception is re-raised to the caller. -/
theorem C2_alert_failure_escalates (env : Env) (cfg : Config) (runId : Nat)
    (store0 : List Txn) (e : String)
    (h1 : (sweepPhase env cfg runId store0).thrown = none)
    (h2 : env.alertError (completionAlertData runId
        (completedRunOf env runId (sweepPhase env cfg runId store0))) = some e) :
    (runReconciliation env cfg runId store0).run.status = RunStatus.FAILED ∧
    (runReconciliation env cfg runId store0).rethrown = some e ∧
    (runReconciliation env cfg runId store0).run.errors
      = (sweepPhase env cfg runId store0).run.errors ++ [e] := by
  have hfin := finalizeRun_alert_fails env runId (sweepPhase env cfg runId store0) e h1 h2
  have hthrown : (tryBody env cfg runId store0).thrown = some e := by
    unfold tryBody
    rw [hfin]
  rw [runReconciliation_catch env cfg runId store0 e hthrown]
  refine ⟨rfl, rfl, ?_⟩
  show (tryBody env cfg runId store0).run.errors ++ [e] = _
  unfold tryBody
  rw [hfin]
  show (completedRunOf env runId (sweepPhase env cfg runId store0)).errors ++ [e] = _
  rw [completedRunOf_errors]

/-- C2 witness: the exact-pair store with a failing completion alert. -/
theorem C2_alert_failure_escalates_witness :
    (sweepPhase envCompletionFail defaultConfig 7 storeExactPair).thrown = none ∧
    (runReconciliation envCompletionFail defaultConfig 7 storeExactPair).run.status
      = RunStatus.FAILED :=
  ⟨by decide,
   (C2_alert_failure_escalates envCompletionFail defaultConfig 7 storeExactPair
      "alert save failed" (by decide) (by decide)).1⟩

/-! ## C7 -/

/-- C7: any exception pending after the `try` body (candidate loading,
matching loop, sweep or finalization) makes the `catch` block set the
run's status to FAILED, append the message to `errors`, keep the store
exactly as committed at the failure point (no rollback of earlier
iterations), and re-raise the exception to the caller.  The returned run
is the persisted partial Run Ledger. -/
theorem C7_catch_behavior (env : Env) (cfg : Config) (runId : Nat)
    (store0 : List Txn) (e : String)
    (h : (tryBody env cfg runId store0).thrown = some e) :
    (runReconciliation env cfg runId store0).run.status = RunStatus.FAILED ∧
    (runReconciliation env cfg runId store0).run.errors
      = (tryBody env cfg runId store0).run.errors ++ [e] ∧
    (runReconciliation env cfg runId store0).store
      = (tryBody env cfg runId store0).store ∧
    (runReconciliation env cfg runId store0).rethrown = some e := by
  rw [runReconciliation_catch env cfg runId store0 e h]
  exact ⟨rfl, rfl, rfl, rfl⟩

/-- C7 witness: the dispute alert of the second bank record raises
mid-loop; the run fails, the error is recorded, and the first pair —
matched before the failure — is still MATCHED in the preserved store. -/
theorem C7_catch_behavior_witness :
    (tryBody envDisputeFail defaultConfig 7 storeDisputeFail).thrown
      = some "dispute alert failed" ∧
    (runReconciliation envDisputeFail defaultConfig 7 storeDisputeFail).run.status
      = RunStatus.FAILED ∧
    txnStatusIn (runReconciliation envDisputeFail defaultConfig 7 storeDisputeFail).store 1
      = some RecStatus.MATCHED :=
  ⟨by decide,
   (C7_catch_behavior envDisputeFail defaultConfig 7 storeDisputeFail
      "dispute alert failed" (by decide)).1,
   by decide⟩

/-! ## C8 -/

/-- C8: the exact path's date filter is inclusive — an unclaimed
exact-key candidate whose timestamp differs from the bank record's by
exactly `dateWindowHours` hours (in milliseconds) is in `validMatches`,
while any strictly larger difference excludes it. -/
theorem C8_date_window_boundary
    (date_window_hours : Int) (matchedMerchantIds : List Nat)
    (bankTxn mTxn : Txn) (pool : List Txn)
    (hmem : mTxn ∈ pool) (hkey : txnKey mTxn = txnKey bankTxn)
    (hcl : matchedMerchantIds.contains mTxn._id = false) :
    (((bankTxn.transaction_date - mTxn.transaction_date).natAbs : Int)
        = date_window_hours * 3600000 →
      mTxn ∈ validMatchesFor date_window_hours matchedMerchantIds bankTxn
        (merchantTxnMapGet pool (txnKey bankTxn))) ∧
    (date_window_hours * 3600000
        < ((bankTxn.transaction_date - mTxn.transaction_date).natAbs : Int) →
      mTxn ∉ validMatchesFor date_window_hours matchedMerchantIds bankTxn
        (merchantTxnMapGet pool (txnKey bankTxn))) := by
  constructor
  · intro heq
    unfold validMatchesFor merchantTxnMapGet
    rw [List.mem_filter, List.mem_filter]
    refine ⟨⟨hmem, ?_⟩, ?_⟩
    · simp [hkey]
    · rw [Bool.and_eq_true]
      refine ⟨by rw [Bool.not_eq_true']; exact hcl, ?_⟩
      unfold dateWindowOk
      rw [heq]
      exact decide_eq_true (le_refl _)
  · intro hgt hmem2
    unfold validMatchesFor at hmem2
    rw [List.mem_filter] at hmem2
    have hcond := hmem2.2
    rw [Bool.and_eq_true] at hcond
    have hdw := hcond.2
    unfold dateWindowOk at hdw
    have hle := of_decide_eq_true hdw
    exact absurd hle (not_le.mpr hgt)

/-- C8 witness: a candidate exactly 24 h away (86 400 000 ms) passes the
filter. -/
theorem C8_date_window_boundary_witness :
    ((86400000 : Int) = 24 * 3600000) ∧
    mkMerch 2 "T1" "M1" 1000 86400000 ∈ validMatchesFor 24 []
      (mkBank 1 "T1" "M1" 1000 0)
      (merchantTxnMapGet [mkMerch 2 "T1" "M1" 1000 86400000]
        (txnKey (mkBank 1 "T1" "M1" 1000 0))) :=
  ⟨by decide,
   (C8_date_window_boundary 24 [] (mkBank 1 "T1" "M1" 1000 0)
      (mkMerch 2 "T1" "M1" 1000 86400000) [mkMerch 2 "T1" "M1" 1000 86400000]
      (by decide) (by decide) (by decide)).1 (by decide)⟩

/-! ## Per-merchant total_amount book-keeping -/

/-- Only the exact branch touches a merchant's `total_amount`: it adds the
bank amount to the bank merchant's entry and leaves every other entry
alone. -/
theorem exactMatchStep_totalAmount (runId : Nat) (st : LoopState)
    (bankTxn matchedMerchant : Txn) :
    (msGet (exactMatchStep runId st bankTxn matchedMerchant).merchantSummary
        bankTxn.merchant_id).total_amount
      = (msGet st.merchantSummary bankTxn.merchant_id).total_amount + bankTxn.amount ∧
    ∀ k, k ≠ bankTxn.merchant_id →
      (msGet (exactMatchStep runId st bankTxn matchedMerchant).merchantSummary
          k).total_amount
        = (msGet st.merchantSummary k).total_amount := by
  constructor
  · simp only [exactMatchStep]
    rw [msGet_msUpdate_self, msGet_msUpdate_self]
  · intro k hk
    simp only [exactMatchStep]
    rw [msGet_msUpdate_ne _ _ _ _ hk, msGet_msUpdate_ne _ _ _ _ hk]

/-- The tolerant branch leaves the whole merchant summary unchanged. -/
theorem tolerantMatchStep_merchantSummary (runId : Nat) (st : LoopState)
    (bankTxn mismatchTxn : Txn) :
    (tolerantMatchStep runId st bankTxn mismatchTxn).merchantSummary
      = st.merchantSummary := rfl

/-- The mismatch branch only bumps `mismatches`; no `total_amount` moves. -/
theorem mismatchStep_totalAmount (env : Env) (runId : Nat) (st : LoopState)
    (bankTxn mismatchTxn : Txn) (k : String) :
    (msGet (mismatchStep env runId st bankTxn mismatchTxn).merchantSummary k).total_amount
      = (msGet st.merchantSummary k).total_amount := by
  simp only [mismatchStep]
  cases env.alertError (disputeAlertData bankTxn mismatchTxn) with
  | some e => rfl
  | none =>
    by_cases hk : k = bankTxn.merchant_id
    · subst hk
      rw [msGet_msUpdate_self]
    · rw [msGet_msUpdate_ne _ _ _ _ hk]

/-- The fallback branch (either outcome) never moves a `total_amount`. -/
theorem fuzzyStep_totalAmount (env : Env) (cfg : Config) (runId : Nat)
    (st : LoopState) (bankTxn mismatchTxn : Txn) (k : String) :
    (msGet (fuzzyStep env cfg runId st bankTxn mismatchTxn).merchantSummary k).total_amount
      = (msGet st.merchantSummary k).total_amount := by
  unfold fuzzyStep
  split
  · rfl
  · exact mismatchStep_totalAmount env runId st bankTxn mismatchTxn k

/-- The unmatched-bank branch only bumps `unmatched`; no `total_amount`
moves. -/
theorem unmatchedBankStep_totalAmount (runId : Nat) (st : LoopState)
    (bankTxn : Txn) (k : String) :
    (msGet (unmatchedBankStep runId st bankTxn).merchantSummary k).total_amount
      = (msGet st.merchantSummary k).total_amount := by
  simp only [unmatchedBankStep]
  by_cases hk : k = bankTxn.merchant_id
  · subst hk
    rw [msGet_msUpdate_self]
  · rw [msGet_msUpdate_ne _ _ _ _ hk]

/-- The sweep only bumps `unmatched`; no `total_amount` moves. -/
theorem processMerchantSweep_totalAmount (runId : Nat) (st : LoopState)
    (mTxn : Txn) (k : String) :
    (msGet (processMerchantSweep runId st mTxn).merchantSummary k).total_amount
      = (msGet st.merchantSummary k).total_amount := by
  unfold processMerchantSweep
  by_cases h1 : st.thrown.isSome
  · rw [if_pos h1]
  · rw [if_neg h1]
    split
    · rfl
    · by_cases hk : k = mTxn.merchant_id
      · subst hk
        rw [msGet_msUpdate_self]
      · rw [msGet_msUpdate_ne _ _ _ _ hk]

/-! ## C10 -/

/-- C10: a merchant's `total_amount` accrues only through the exact-key
branch, and there exactly by the bank amount; the fallback outcomes
(tolerant match and amount mismatch), the unmatched-bank branch, and the
merchant sweep leave every merchant's `total_amount` unchanged. -/
theorem C10_totalAmount_exact_only
    (env : Env) (cfg : Config) (runId : Nat) (pool : List Txn)
    (st : LoopState) (bankTxn mTxn : Txn) (h0 : st.thrown = none) :
    (∀ matchedMerchant rest,
      validMatchesFor cfg.date_window_hours st.matchedMerchantIds bankTxn
          (merchantTxnMapGet pool (txnKey bankTxn)) = matchedMerchant :: rest →
      (msGet (processBankTxn env cfg runId pool st bankTxn).merchantSummary
          bankTxn.merchant_id).total_amount
        = (msGet st.merchantSummary bankTxn.merchant_id).total_amount + bankTxn.amount ∧
      ∀ k, k ≠ bankTxn.merchant_id →
        (msGet (processBankTxn env cfg runId pool st bankTxn).merchantSummary
            k).total_amount
          = (msGet st.merchantSummary k).total_amount) ∧
    (validMatchesFor cfg.date_window_hours st.matchedMerchantIds bankTxn
        (merchantTxnMapGet pool (txnKey bankTxn)) = [] →
      ∀ k,
        (msGet (processBankTxn env cfg runId pool st bankTxn).merchantSummary
            k).total_amount
          = (msGet st.merchantSummary k).total_amount) ∧
    (∀ k,
      (msGet (processMerchantSweep runId st mTxn).merchantSummary k).total_amount
        = (msGet st.merchantSummary k).total_amount) := by
  refine ⟨fun matchedMerchant rest hv => ?_, fun hv k => ?_, fun k => ?_⟩
  · have hred : processBankTxn env cfg runId pool st bankTxn
        = unknownMerchantCheck env (exactMatchStep runId st bankTxn matchedMerchant)
            bankTxn := by
      unfold processBankTxn
      rw [h0, hv]
      rfl
    rw [hred,
      (unknownMerchantCheck_spec env (exactMatchStep runId st bankTxn matchedMerchant)
        bankTxn).2.1]
    exact exactMatchStep_totalAmount runId st bankTxn matchedMerchant
  · cases hfq : fuzzyQuery st.store bankTxn with
    | nil =>
      have hred : processBankTxn env cfg runId pool st bankTxn
          = unknownMerchantCheck env (unmatchedBankStep runId st bankTxn) bankTxn := by
        unfold processBankTxn
        rw [h0, hv, hfq]
        rfl
      rw [hred,
        (unknownMerchantCheck_spec env (unmatchedBankStep runId st bankTxn) bankTxn).2.1]
      exact unmatchedBankStep_totalAmount runId st bankTxn k
    | cons m rest2 =>
      have hred : processBankTxn env cfg runId pool st bankTxn
          = unknownMerchantCheck env (fuzzyStep env cfg runId st bankTxn m) bankTxn := by
        unfold processBankTxn
        rw [h0, hv, hfq]
        rfl
      rw [hred,
        (unknownMerchantCheck_spec env (fuzzyStep env cfg runId st bankTxn m) bankTxn).2.1]
      exact fuzzyStep_totalAmount env cfg runId st bankTxn m k
  · exact processMerchantSweep_totalAmount runId st mTxn k

/-- C10 witness: in Scenario E the fallback (tolerant) outcome leaves
merchant M1's `total_amount` untouched. -/
theorem C10_totalAmount_exact_only_witness :
    (initState cfgScenarioE storeScenarioE).thrown = none ∧
    (msGet (processBankTxn envOk cfgScenarioE 7
        (merchantPool cfgScenarioE storeScenarioE)
        (initState cfgScenarioE storeScenarioE)
        (mkBank 1 "T5" "M1" 1000 0)).merchantSummary "M1").total_amount
      = (msGet (initState cfgScenarioE storeScenarioE).merchantSummary "M1").total_amount :=
  ⟨by decide,
   (C10_totalAmount_exact_only envOk cfgScenarioE 7
      (merchantPool cfgScenarioE storeScenarioE)
      (initState cfgScenarioE storeScenarioE)
      (mkBank 1 "T5" "M1" 1000 0) (mkMerch 2 "T5" "M1" 1080 0)
      (by decide)).2.1 (by decide) "M1"⟩

/-! ## Bank-side conservation book-keeping -/

/-- The bank-side outcome counters of a summary. -/
def bankOutcomes (s : Summary) : Nat :=
  s.matched + s.unmatched_bank + s.amount_mismatch

/-- The bank-side outcome counters of the in-memory run. -/
def bankOut (st : LoopState) : Nat := bankOutcomes st.run.summary

/-- The unknown-merchant check moves none of the outcome counters. -/
theorem bankOut_unknownMerchantCheck (env : Env) (st : LoopState) (b : Txn) :
    bankOut (unknownMerchantCheck env st b) = bankOut st := by
  have hs := unknownMerchantCheck_spec env st b
  unfold bankOut bankOutcomes
  rw [hs.2.2.2.1, hs.2.2.2.2.1, hs.2.2.2.2.2.1]

/-- The exact branch adds exactly one outcome (`matched`). -/
theorem bankOut_exactMatchStep (runId : Nat) (st : LoopState) (b mm : Txn) :
    bankOut (exactMatchStep runId st b mm) = bankOut st + 1 := by
  simp only [bankOut, bankOutcomes, exactMatchStep]
  omega

/-- The tolerant branch adds exactly one outcome (`matched`). -/
theorem bankOut_tolerantMatchStep (runId : Nat) (st : LoopState) (b m : Txn) :
    bankOut (tolerantMatchStep runId st b m) = bankOut st + 1 := by
  simp only [bankOut, bankOutcomes, tolerantMatchStep]
  omega

/-- The mismatch branch adds exactly one outcome (`amount_mismatch`),
whether or not the dispute alert raises. -/
theorem bankOut_mismatchStep (env : Env) (runId : Nat) (st : LoopState) (b m : Txn) :
    bankOut (mismatchStep env runId st b m) = bankOut st + 1 := by
  simp only [bankOut, bankOutcomes, mismatchStep]
  cases env.alertError (disputeAlertData b m) with
  | some e => dsimp only; omega
  | none => dsimp only; omega

/-- The fallback branch adds exactly one outcome either way. -/
theorem bankOut_fuzzyStep (env : Env) (cfg : Config) (runId : Nat)
    (st : LoopState) (b m : Txn) :
    bankOut (fuzzyStep env cfg runId st b m) = bankOut st + 1 := by
  unfold fuzzyStep
  split
  · exact bankOut_tolerantMatchStep runId st b m
  · exact bankOut_mismatchStep env runId st b m

/-- The no-candidate branch adds exactly one outcome (`unmatched_bank`). -/
theorem bankOut_unmatchedBankStep (runId : Nat) (st : LoopState) (b : Txn) :
    bankOut (unmatchedBankStep runId st b) = bankOut st + 1 := by
  simp only [bankOut, bankOutcomes, unmatchedBankStep]
  omega

/-- Each visited bank record contributes exactly one outcome. -/
theorem bankOut_processBankTxn (env : Env) (cfg : Config) (runId : Nat)
    (pool : List Txn) (st : LoopState) (b : Txn) (h : st.thrown = none) :
    bankOut (processBankTxn env cfg runId pool st b) = bankOut st + 1 := by
  cases hv : validMatchesFor cfg.date_window_hours st.matchedMerchantIds b
      (merchantTxnMapGet pool (txnKey b)) with
  | cons mm rest =>
    have hred : processBankTxn env cfg runId pool st b
        = unknownMerchantCheck env (exactMatchStep runId st b mm) b := by
      unfold processBankTxn
      rw [h, hv]
      rfl
    rw [hred, bankOut_unknownMerchantCheck, bankOut_exactMatchStep]
  | nil =>
    cases hfq : fuzzyQuery st.store b with
    | cons m rest2 =>
      have hred : processBankTxn env cfg runId pool st b
          = unknownMerchantCheck env (fuzzyStep env cfg runId st b m) b := by
        unfold processBankTxn
        rw [h, hv, hfq]
        rfl
      rw [hred, bankOut_unknownMerchantCheck, bankOut_fuzzyStep]
    | nil =>
      have hred : processBankTxn env cfg runId pool st b
          = unknownMerchantCheck env (unmatchedBankStep runId st b) b := by
        unfold processBankTxn
        rw [h, hv, hfq]
        rfl
      rw [hred, bankOut_unknownMerchantCheck, bankOut_unmatchedBankStep]

/-- An iteration that starts with a pending exception leaves `thrown`;
conversely, if the state after an iteration carries no exception, the
state before it carried none either. -/
theorem processBankTxn_thrown_none (env : Env) (cfg : Config) (runId : Nat)
    (pool : List Txn) (st : LoopState) (b : Txn)
    (h : (processBankTxn env cfg runId pool st b).thrown = none) :
    st.thrown = none := by
  cases hst : st.thrown with
  | none => rfl
  | some e =>
    rw [processBankTxn_thrown env cfg runId pool st b (by rw [hst]; rfl), hst] at h
    cases h

/-- If the whole loop ends with no pending exception, it started with
none. -/
theorem foldl_processBankTxn_thrown_none (env : Env) (cfg : Config) (runId : Nat)
    (pool : List Txn) (l : List Txn) (st : LoopState)
    (h : (l.foldl (processBankTxn env cfg runId pool) st).thrown = none) :
    st.thrown = none := by
  induction l generalizing st with
  | nil => exact h
  | cons a l ih =>
    rw [List.foldl_cons] at h
    exact processBankTxn_thrown_none env cfg runId pool st a (ih _ h)

/-- Over the whole loop the outcome counters grow by at most one per bank
record, exactly one per record when no exception interrupts the loop. -/
theorem bankOut_foldl (env : Env) (cfg : Config) (runId : Nat) (pool : List Txn)
    (l : List Txn) (st : LoopState) :
    bankOut (l.foldl (processBankTxn env cfg runId pool) st) ≤ bankOut st + l.length ∧
    ((l.foldl (processBankTxn env cfg runId pool) st).thrown = none →
      bankOut (l.foldl (processBankTxn env cfg runId pool) st) = bankOut st + l.length) := by
  induction l generalizing st with
  | nil => exact ⟨Nat.le_refl _, fun _ => rfl⟩
  | cons a l ih =>
    cases hst : st.thrown with
    | some e =>
      rw [List.foldl_cons, processBankTxn_thrown env cfg runId pool st a (by rw [hst]; rfl)]
      refine ⟨le_trans (ih st).1 (by simp only [List.length_cons]; omega), fun hnone => ?_⟩
      have := foldl_processBankTxn_thrown_none env cfg runId pool l st hnone
      rw [hst] at this
      cases this
    | none =>
      rw [List.foldl_cons]
      have hstep := bankOut_processBankTxn env cfg runId pool st a hst
      have ih' := ih (processBankTxn env cfg runId pool st a)
      constructor
      · refine le_trans ih'.1 ?_
        rw [hstep]
        simp only [List.length_cons]
        omega
      · intro hnone
        rw [ih'.2 hnone, hstep]
        simp only [List.length_cons]
        omega

/-- The sweep moves none of the bank-side outcome counters. -/
theorem bankOut_processMerchantSweep (runId : Nat) (st : LoopState) (m : Txn) :
    bankOut (processMerchantSweep runId st m) = bankOut st := by
  unfold bankOut bankOutcomes processMerchantSweep
  by_cases h : st.thrown.isSome
  · rw [if_pos h]
  · rw [if_neg h]
    split
    · rfl
    · rfl

/-- Neither does the whole sweep. -/
theorem bankOut_foldl_sweep (runId : Nat) (l : List Txn) (st : LoopState) :
    bankOut (l.foldl (processMerchantSweep runId) st) = bankOut st := by
  induction l generalizing st with
  | nil => rfl
  | cons a l ih => rw [List.foldl_cons, ih, bankOut_processMerchantSweep]

/-- Finalization (SLA count, formatting, completion alert) moves none of
the outcome counters. -/
theorem bankOut_finalizeRun (env : Env) (runId : Nat) (st : LoopState) :
    bankOut (finalizeRun env runId st) = bankOut st := by
  by_cases h : st.thrown.isSome
  · unfold finalizeRun
    rw [if_pos h]
  · have h' : st.thrown.isSome = false := by simpa using h
    simp only [finalizeRun, h', Bool.false_eq_true, if_false]
    cases env.alertError (completionAlertData runId (completedRunOf env runId st)) with
    | some e => rfl
    | none => rfl

/-- No branch of the matching loop touches `total_bank_transactions`. -/
theorem totalBank_processBankTxn (env : Env) (cfg : Config) (runId : Nat)
    (pool : List Txn) (st : LoopState) (b : Txn) :
    (processBankTxn env cfg runId pool st b).run.summary.total_bank_transactions
      = st.run.summary.total_bank_transactions := by
  cases hst : st.thrown with
  | some e => rw [processBankTxn_thrown env cfg runId pool st b (by rw [hst]; rfl)]
  | none =>
    have hfuzzy : ∀ m,
        (fuzzyStep env cfg runId st b m).run.summary.total_bank_transactions
          = st.run.summary.total_bank_transactions := by
      intro m
      unfold fuzzyStep
      split
      · rfl
      · simp only [mismatchStep]
        cases env.alertError (disputeAlertData b m) with
        | some e => rfl
        | none => rfl
    cases hv : validMatchesFor cfg.date_window_hours st.matchedMerchantIds b
        (merchantTxnMapGet pool (txnKey b)) with
    | cons mm rest =>
      have hred : processBankTxn env cfg runId pool st b
          = unknownMerchantCheck env (exactMatchStep runId st b mm) b := by
        unfold processBankTxn
        rw [hst, hv]
        rfl
      rw [hred, (unknownMerchantCheck_spec env (exactMatchStep runId st b mm) b).2.2.2.2.2.2.1]
      rfl
    | nil =>
      cases hfq : fuzzyQuery st.store b with
      | cons m rest2 =>
        have hred : processBankTxn env cfg runId pool st b
            = unknownMerchantCheck env (fuzzyStep env cfg runId st b m) b := by
          unfold processBankTxn
          rw [hst, hv, hfq]
          rfl
        rw [hred,
          (unknownMerchantCheck_spec env (fuzzyStep env cfg runId st b m) b).2.2.2.2.2.2.1]
        exact hfuzzy m
      | nil =>
        have hred : processBankTxn env cfg runId pool st b
            = unknownMerchantCheck env (unmatchedBankStep runId st b) b := by
          unfold processBankTxn
          rw [hst, hv, hfq]
          rfl
        rw [hred,
          (unknownMerchantCheck_spec env (unmatchedBankStep runId st b) b).2.2.2.2.2.2.1]
        rfl

/-- Nor does the whole loop. -/
theorem totalBank_foldl (env : Env) (cfg : Config) (runId : Nat) (pool : List Txn)
    (l : List Txn) (st : LoopState) :
    (l.foldl (processBankTxn env cfg runId pool) st).run.summary.total_bank_transactions
      = st.run.summary.total_bank_transactions := by
  induction l generalizing st with
  | nil => rfl
  | cons a l ih => rw [List.foldl_cons, ih, totalBank_processBankTxn]

/-- Nor does the sweep. -/
theorem totalBank_processMerchantSweep (runId : Nat) (st : LoopState) (m : Txn) :
    (processMerchantSweep runId st m).run.summary.total_bank_transactions
      = st.run.summary.total_bank_transactions := by
  unfold processMerchantSweep
  by_cases h : st.thrown.isSome
  · rw [if_pos h]
  · rw [if_neg h]
    split
    · rfl
    · rfl

/-- Nor does the whole sweep. -/
theorem totalBank_foldl_sweep (runId : Nat) (l : List Txn) (st : LoopState) :
    (l.foldl (processMerchantSweep runId) st).run.summary.total_bank_transactions
      = st.run.summary.total_bank_transactions := by
  induction l generalizing st with
  | nil => rfl
  | cons a l ih => rw [List.foldl_cons, ih, totalBank_processMerchantSweep]

/-- Nor does finalization. -/
theorem totalBank_finalizeRun (env : Env) (runId : Nat) (st : LoopState) :
    (finalizeRun env runId st).run.summary.total_bank_transactions
      = st.run.summary.total_bank_transactions := by
  by_cases h : st.thrown.isSome
  · unfold finalizeRun
    rw [if_pos h]
  · have h' : st.thrown.isSome = false := by simpa using h
    simp only [finalizeRun, h', Bool.false_eq_true, if_false]
    cases env.alertError (completionAlertData runId (completedRunOf env runId st)) with
    | some e => rfl
    | none => rfl

/-- The `catch` block rewrites only `status` and `errors`: the summary the
caller sees is the `try` body's summary. -/
theorem runReconciliation_summary (env : Env) (cfg : Config) (runId : Nat)
    (store0 : List Txn) :
    (runReconciliation env cfg runId store0).run.summary
      = (tryBody env cfg runId store0).run.summary := by
  cases h : (tryBody env cfg runId store0).thrown with
  | none => simp only [runReconciliation, h]
  | some e => simp only [runReconciliation, h]

/-- The re-raised exception is exactly the `try` body's pending one. -/
theorem runReconciliation_rethrown (env : Env) (cfg : Config) (runId : Nat)
    (store0 : List Txn) :
    (runReconciliation env cfg runId store0).rethrown
      = (tryBody env cfg runId store0).thrown := by
  cases h : (tryBody env cfg runId store0).thrown with
  | none => simp only [runReconciliation, h]
  | some e => simp only [runReconciliation, h]

/-- Finalization keeps a pending exception pending. -/
theorem finalizeRun_thrown_none (env : Env) (runId : Nat) (st : LoopState)
    (h : (finalizeRun env runId st).thrown = none) : st.thrown = none := by
  cases hst : st.thrown with
  | none => rfl
  | some e =>
    unfold finalizeRun at h
    rw [if_pos (by rw [hst]; rfl), hst] at h
    cases h

/-! ## C6 -/

/-- C6 (amended): bank-side conservation holds for every run —
`matched + unmatched_bank + amount_mismatch ≤ total_bank_transactions`,
with equality whenever the run does not fail (no exception interrupted
the loop, i.e. every bank record was visited).  The merchant-side
analogue fails in general (see the counterexample): the fallback can
claim records outside the loaded merchant pool. -/
theorem C6_bank_conservation (env : Env) (cfg : Config) (runId : Nat)
    (store0 : List Txn) :
    bankOutcomes (runReconciliation env cfg runId store0).run.summary
      ≤ (runReconciliation env cfg runId store0).run.summary.total_bank_transactions ∧
    ((runReconciliation env cfg runId store0).rethrown = none →
      bankOutcomes (runReconciliation env cfg runId store0).run.summary
        = (runReconciliation env cfg runId store0).run.summary.total_bank_transactions) := by
  have hsum := runReconciliation_summary env cfg runId store0
  have htot : (tryBody env cfg runId store0).run.summary.total_bank_transactions
      = (bankPool cfg store0).length := by
    unfold tryBody sweepPhase matchingPhase
    rw [totalBank_finalizeRun, totalBank_foldl_sweep, totalBank_foldl]
    rfl
  have hbank : bankOutcomes (tryBody env cfg runId store0).run.summary
      = bankOut (matchingPhase env cfg runId store0) := by
    show bankOut (tryBody env cfg runId store0) = _
    unfold tryBody sweepPhase
    rw [bankOut_finalizeRun, bankOut_foldl_sweep]
  have hfold := bankOut_foldl env cfg runId (merchantPool cfg store0)
    (bankPool cfg store0) (initState cfg store0)
  have hinit : bankOut (initState cfg store0) = 0 := rfl
  constructor
  · rw [hsum, htot, hbank]
    unfold matchingPhase
    refine le_trans hfold.1 ?_
    rw [hinit]
    omega
  · intro hre
    rw [runReconciliation_rethrown] at hre
    have hsweep : (sweepPhase env cfg runId store0).thrown = none :=
      finalizeRun_thrown_none env runId _ hre
    have hmatch : (matchingPhase env cfg runId store0).thrown = none := by
      have := foldl_processMerchantSweep_thrown runId (merchantPool cfg store0)
        (matchingPhase env cfg runId store0)
      unfold sweepPhase at hsweep
      rw [this] at hsweep
      exact hsweep
    rw [hsum, htot, hbank]
    unfold matchingPhase
    unfold matchingPhase at hmatch
    rw [hfold.2 hmatch, hinit]
    omega

/-- C6 witness: the exact-pair run completes and conservation holds with
equality. -/
theorem C6_bank_conservation_witness :
    (runReconciliation envOk defaultConfig 7 storeExactPair).rethrown = none ∧
    bankOutcomes (runReconciliation envOk defaultConfig 7 storeExactPair).run.summary
      = (runReconciliation envOk defaultConfig 7
          storeExactPair).run.summary.total_bank_transactions :=
  ⟨by decide,
   (C6_bank_conservation envOk defaultConfig 7 storeExactPair).2 (by decide)⟩
